import Mathlib

/-!
Formal model of the Virtual Try-On API orchestration layer (`API/main.py`,
`API/Storage/cloudinary_service.py`, `API/Database/database_service.py`).

The HTTP handlers are embedded as pure Lean functions over an explicit
database state (`DB`), an environment record describing the outcomes of the
external collaborators (Cloudinary storage, the synthesis engine, the
feedback engine, the raw network fetches), and the request parameters.
Each handler returns its HTTP status, its response fields, the new database
state (the per-request transaction is rolled back on error), the list of
collaborator events it emitted, and the temporary-file bookkeeping
(files created, files deleted synchronously, deferred background cleanups).
-/

namespace VTO

/-- Model of Python `str.split(sep)` for a one-character separator, on
character lists.  The accumulator holds the current piece, reversed. -/
def pySplitAux (sep : Char) : List Char → List Char → List (List Char)
  | [], acc => [acc.reverse]
  | c :: cs, acc =>
      if c = sep then acc.reverse :: pySplitAux sep cs []
      else pySplitAux sep cs (c :: acc)

/-- Python `s.split(sep)` for a one-character separator. -/
def pySplit (sep : Char) (s : List Char) : List (List Char) :=
  pySplitAux sep s []

theorem pySplitAux_ne_nil (sep : Char) (cs : List Char) :
    ∀ acc, pySplitAux sep cs acc ≠ [] := by
  induction cs with
  | nil => intro acc; simp [pySplitAux]
  | cons c cs ih =>
      intro acc
      simp only [pySplitAux]
      split
      · simp
      · exact ih _

/-- No piece produced by the splitter contains the separator (provided the
accumulator does not). -/
theorem pySplitAux_not_mem_sep (sep : Char) (cs : List Char) :
    ∀ acc, sep ∉ acc → ∀ l ∈ pySplitAux sep cs acc, sep ∉ l := by
  induction cs with
  | nil =>
      intro acc hacc l hl
      simp [pySplitAux] at hl
      subst hl
      simpa using hacc
  | cons c cs ih =>
      intro acc hacc l hl
      simp only [pySplitAux] at hl
      by_cases hc : c = sep
      · rw [if_pos hc] at hl
        rcases List.mem_cons.mp hl with h | h
        · subst h; simpa using hacc
        · exact ih [] (by simp) l h
      · rw [if_neg hc] at hl
        refine ih (c :: acc) ?_ l hl
        intro hmem
        rcases List.mem_cons.mp hmem with h | h
        · exact hc h.symm
        · exact hacc h

/-- Every character of every piece comes from the input or the accumulator. -/
theorem pySplitAux_chars_sub (sep : Char) (cs : List Char) :
    ∀ acc, ∀ l ∈ pySplitAux sep cs acc, ∀ c ∈ l, c ∈ cs ∨ c ∈ acc := by
  induction cs with
  | nil =>
      intro acc l hl c hc
      simp [pySplitAux] at hl
      subst hl
      exact Or.inr (by simpa using hc)
  | cons d cs ih =>
      intro acc l hl c hc
      simp only [pySplitAux] at hl
      by_cases hd : d = sep
      · rw [if_pos hd] at hl
        rcases List.mem_cons.mp hl with h | h
        · subst h
          exact Or.inr (by simpa using hc)
        · rcases ih [] l h c hc with h' | h'
          · exact Or.inl (List.mem_cons_of_mem d h')
          · simp at h'
      · rw [if_neg hd] at hl
        rcases ih (d :: acc) l hl c hc with h' | h'
        · exact Or.inl (List.mem_cons_of_mem d h')
        · rcases List.mem_cons.mp h' with h'' | h''
          · exact Or.inl (h'' ▸ List.mem_cons_self d cs)
          · exact Or.inr h''

theorem getLastD_mem {α : Type} : ∀ (l : List α) (d : α), l ≠ [] → l.getLastD d ∈ l := by
  intro l
  induction l with
  | nil => intro d h; exact absurd rfl h
  | cons a as ih =>
      intro d _
      cases as with
      | nil => simp
      | cons b bs =>
          rw [List.getLastD_cons]
          exact List.mem_cons_of_mem a (ih a (by simp))

theorem headD_mem {α : Type} (l : List α) (d : α) (h : l ≠ []) :
    l.headD d ∈ l := by
  cases l with
  | nil => exact absurd rfl h
  | cons a as => simp

/-- Model of `url.split("/")[-1].split(".")[0]` from `main.py`: the storage
identifier the handlers record in the database for an uploaded object. -/
def extract_public_id (url : String) : String :=
  String.mk ((pySplit '.' ((pySplit '/' url.data).getLastD [])).headD [])

/-- The extracted identifier never contains a slash: it is a piece of a piece
of a slash-split. -/
theorem extract_public_id_no_slash (url : String) :
    '/' ∉ (extract_public_id url).data := by
  intro hmem
  have hdata : (extract_public_id url).data
      = (pySplit '.' ((pySplit '/' url.data).getLastD [])).headD [] := rfl
  rw [hdata] at hmem
  set seg := (pySplit '/' url.data).getLastD [] with hseg
  have hslash_seg : '/' ∉ seg := by
    have hmem_seg : seg ∈ pySplit '/' url.data :=
      getLastD_mem _ _ (pySplitAux_ne_nil '/' url.data [])
    exact pySplitAux_not_mem_sep '/' url.data [] (by simp) seg hmem_seg
  have hhead_mem : (pySplit '.' seg).headD [] ∈ pySplit '.' seg :=
    headD_mem _ _ (pySplitAux_ne_nil '.' seg [])
  rcases pySplitAux_chars_sub '.' seg [] _ hhead_mem '/' hmem with h | h
  · exact hslash_seg h
  · simp at h

/-- The folder used by `upload_image` in `cloudinary_service.py`. -/
def cloudinaryFolder : String := "HackAIThon"

/-- The folder-qualified public id Cloudinary assigns when `upload_image`
stores an object with `folder="HackAIThon"` and a preserved filename. -/
def folderQualifiedPublicId (name : String) : String :=
  cloudinaryFolder ++ "/" ++ name

/-- The identifier recorded by the handlers never equals the folder-qualified
public id of the uploaded object. -/
theorem extract_ne_folderQualified (url name : String) :
    extract_public_id url ≠ folderQualifiedPublicId name := by
  intro heq
  have hdata := congrArg String.data heq
  have hslash : '/' ∈ (folderQualifiedPublicId name).data := by
    have : (folderQualifiedPublicId name).data
        = cloudinaryFolder.data ++ "/".data ++ name.data := by
      simp [folderQualifiedPublicId, String.data_append]
    rw [this]
    refine List.mem_append_left _ (List.mem_append_right _ ?_)
    decide
  rw [← hdata] at hslash
  exact extract_public_id_no_slash url hslash

/-! Relational data model, in the column order of `create_tables` in
`database_service.py` (the handlers index query rows positionally). -/

/-- A row of the `users_image` table: `(id, user_id, public_id, url, upload_date)`. -/
structure UserImageRow where
  id : Int
  user_id : Option Int
  public_id : String
  url : String
  upload_date : Nat
deriving Repr, DecidableEq

/-- A row of the `clothes` table: `(id, user_id, public_id, url, upload_date)`. -/
structure ClothesRow where
  id : Int
  user_id : Option Int
  public_id : String
  url : String
  upload_date : Nat
deriving Repr, DecidableEq

/-- A row of the `tryOnImage` table:
`(id, user_id, user_image_id, clothes_id, public_id, url, created_at)`. -/
structure TryOnRow where
  id : Int
  user_id : Option Int
  user_image_id : Int
  clothes_id : Int
  public_id : String
  url : String
  created_at : Nat
deriving Repr, DecidableEq

/-- A row of the `feedback` table: `(id, tryOnImage_id, feedback, created_at)`. -/
structure FeedbackRow where
  id : Int
  tryOnImage_id : Int
  feedback : String
  created_at : Nat
deriving Repr, DecidableEq

/-- The relational state the handlers operate on. -/
structure DB where
  users : List Int
  users_image : List UserImageRow
  clothes : List ClothesRow
  tryOnImage : List TryOnRow
  feedback : List FeedbackRow
deriving Repr, DecidableEq

/-- Calls a handler makes to its collaborators, in order. -/
inductive Event where
  | storageUpload (path : String)
  | storageDelete (public_id : String)
  | dbDelete (table : String) (id : Int)
  | generateFeedback (path : String)
  | synthesize (personPath clothingPath : String)
deriving Repr, DecidableEq

/-- Number of storage-upload calls in an event trace. -/
def uploadCalls (evs : List Event) : Nat :=
  (evs.filter fun e => match e with | .storageUpload _ => true | _ => false).length

/-- Number of storage-delete calls in an event trace. -/
def storageDeleteCalls (evs : List Event) : Nat :=
  (evs.filter fun e => match e with | .storageDelete _ => true | _ => false).length

/-- Number of feedback-generation calls in an event trace. -/
def genCalls (evs : List Event) : Nat :=
  (evs.filter fun e => match e with | .generateFeedback _ => true | _ => false).length

/-- Model of the user-id validation block shared by `upload_images` and
`process_try_on`: a supplied id is used only when it is truthy, positive and
present in the `users` table; otherwise the request silently proceeds with no
owner. -/
def resolveUserId (db : DB) (user_id : Option Int) : Option Int :=
  match user_id with
  | none => none
  | some u => if 0 < u ∧ u ∈ db.users then some u else none

/-! Feedback payload model and the display formatter
(`format_feedback_for_ui` in `main.py`). -/

/-- The value stored under `overall_score`: a number (Python `int`/`float`,
modelled as a rational) or anything else, carried by its `str` rendering. -/
inductive ScoreVal where
  | num (q : ℚ)
  | other (s : String)
deriving DecidableEq

/-- A structured feedback payload, with the three keys the formatter
recognizes. -/
structure Payload where
  feedback : Option String
  recommendations : Option (List String)
  overall_score : Option ScoreVal
deriving DecidableEq

/-- A value handed to the formatter: a raw string or a decoded object. -/
inductive FB where
  | str (s : String)
  | obj (p : Payload)

/-- Python truthiness of an optional string field. -/
def pyTruthyStr : Option String → Bool
  | some s => s != ""
  | none => false

/-- Python truthiness of an optional list field. -/
def pyTruthyList : Option (List String) → Bool
  | some l => !l.isEmpty
  | none => false

/-- Python `int()` on a rational: truncation toward zero. -/
def pyInt (q : ℚ) : Int :=
  if 0 ≤ q then ⌊q⌋ else -⌊-q⌋

/-- Number of filled stars: `int(min(score, 10))`, clamped at zero by
Python's string repetition. -/
def starCount (q : ℚ) : Nat := (pyInt (min q 10)).toNat

/-- Number of empty stars: `10 - int(min(score, 10))`, clamped at zero. -/
def emptyStarCount (q : ℚ) : Nat := (10 - pyInt (min q 10)).toNat

/-- The star slots of the rendered score line. -/
def starSlots (q : ℚ) : List Char :=
  List.replicate (starCount q) '★' ++ List.replicate (emptyStarCount q) '☆'

/-- Python `sep.join(pieces)`. -/
def pyJoin (sep : String) : List String → String
  | [] => ""
  | [x] => x
  | x :: y :: ys => x ++ sep ++ pyJoin sep (y :: ys)

/-- The enumerated recommendation lines (`enumerate(recommendations, 1)`). -/
def recLines : Nat → List String → List String
  | _, [] => []
  | i, r :: rs => ("▶️ " ++ toString i ++ ". " ++ r) :: recLines (i + 1) rs

/-- The second line of the score section. -/
def scoreLine (numStr : ℚ → String) : ScoreVal → String
  | .num q => String.mk (starSlots q) ++ " (" ++ numStr q ++ "/10)"
  | .other s => s

/-- The section-assembly core of `format_feedback_for_ui`, applied to a
decoded payload.  `dumps` abstracts `json.dumps(..., ensure_ascii=False,
indent=2)` and `numStr` the `str()` rendering of a number inside an f-string. -/
def formatPayload (dumps : Payload → String) (numStr : ℚ → String) (p : Payload) : String :=
  let s1 : List String :=
    if pyTruthyStr p.feedback then
      [pyJoin "\n" ["💬 NHẬN XÉT CHI TIẾT:", p.feedback.getD ""]]
    else []
  let s2 : List String :=
    if pyTruthyList p.recommendations then
      [pyJoin "\n" ("✨ ĐỀ XUẤT:" :: recLines 1 (p.recommendations.getD []))]
    else []
  let s3 : List String :=
    match p.overall_score with
    | some v => [pyJoin "\n" ["💯 ĐIỂM ĐÁNH GIÁ TỔNG THỂ:", scoreLine numStr v]]
    | none => []
  let sections := s1 ++ s2 ++ s3
  if sections.isEmpty then dumps p else pyJoin "\n\n" sections

/-- Model of `format_feedback_for_ui`: a string input is first run through
`json.loads` (abstracted by `parse`); an undecodable string is returned
unchanged. -/
def format_feedback_for_ui (parse : String → Option Payload) (dumps : Payload → String)
    (numStr : ℚ → String) : FB → String
  | .str s =>
      match parse s with
      | none => s
      | some p => formatPayload dumps numStr p
  | .obj p => formatPayload dumps numStr p

/-- Rendering of a FastAPI `HTTPException` by `str(e)`: `"<code>: <detail>"`. -/
def httpExcStr (code : Nat) (detail : String) : String :=
  toString code ++ ": " ++ detail

/-! Intake workflow: the `upload_images` handler. -/

/-- Collaborator outcomes for one intake request: database connectivity, the
scratch paths chosen by `save_uploaded_file`, the result of each
`upload_image` call, and the identity values assigned by the inserts. -/
structure UploadEnv where
  connOk : Bool
  personPath : String
  clothingPath : String
  personUpload : Except String String
  clothingUpload : Except String String
  newPersonId : Int
  newClothingId : Int
  now : Nat

/-- Outcome of an intake request. -/
structure UploadResult where
  status : Nat
  detail : String
  person_id : Option Int
  person_url : Option String
  person_public_id : Option String
  clothing_id : Option Int
  clothing_url : Option String
  clothing_public_id : Option String
  db : DB
  events : List Event
  tempCreated : List String
  tempDeleted : List String
  bgCleanup : List (List String)

/-- Failure outcome of an intake request: the transaction is rolled back and
no response fields are produced; temporary files are not removed. -/
def uploadFailResult (status : Nat) (detail : String) (db : DB)
    (events : List Event) (temps : List String) : UploadResult :=
  { status := status, detail := detail,
    person_id := none, person_url := none, person_public_id := none,
    clothing_id := none, clothing_url := none, clothing_public_id := none,
    db := db, events := events, tempCreated := temps, tempDeleted := [],
    bgCleanup := [] }

/-- Model of the `upload_images` handler.  The two image parameters record
whether the corresponding multipart part was supplied. -/
def upload_images (env : UploadEnv) (db : DB) (person_image clothing_image : Bool)
    (user_id : Option Int) : UploadResult :=
  if person_image = false ∧ clothing_image = false then
    uploadFailResult 400 "At least one image must be provided" db [] []
  else if env.connOk = false then
    uploadFailResult 500
      ("Error uploading images: " ++ httpExcStr 500 "Database connection failed") db [] []
  else
    let eff := resolveUserId db user_id
    if person_image then
      match env.personUpload with
      | .error e =>
          uploadFailResult 500 ("Error uploading images: " ++ e) db
            [Event.storageUpload env.personPath] [env.personPath]
      | .ok purl =>
          let ppid := extract_public_id purl
          let db1 : DB :=
            { db with users_image :=
                db.users_image ++ [{ id := env.newPersonId, user_id := eff,
                                     public_id := ppid, url := purl,
                                     upload_date := env.now }] }
          if clothing_image then
            match env.clothingUpload with
            | .error e =>
                uploadFailResult 500 ("Error uploading images: " ++ e) db
                  [Event.storageUpload env.personPath, Event.storageUpload env.clothingPath]
                  [env.personPath, env.clothingPath]
            | .ok curl =>
                let cpid := extract_public_id curl
                let db2 : DB :=
                  { db1 with clothes :=
                      db1.clothes ++ [{ id := env.newClothingId, user_id := eff,
                                        public_id := cpid, url := curl,
                                        upload_date := env.now }] }
                { status := 200, detail := "",
                  person_id := some env.newPersonId, person_url := some purl,
                  person_public_id := some ppid,
                  clothing_id := some env.newClothingId, clothing_url := some curl,
                  clothing_public_id := some cpid,
                  db := db2,
                  events := [Event.storageUpload env.personPath,
                             Event.storageUpload env.clothingPath],
                  tempCreated := [env.personPath, env.clothingPath],
                  tempDeleted := [],
                  bgCleanup := [[env.personPath, env.clothingPath]] }
          else
            { status := 200, detail := "",
              person_id := some env.newPersonId, person_url := some purl,
              person_public_id := some ppid,
              clothing_id := none, clothing_url := none, clothing_public_id := none,
              db := db1,
              events := [Event.storageUpload env.personPath],
              tempCreated := [env.personPath], tempDeleted := [],
              bgCleanup := [[env.personPath]] }
    else
      match env.clothingUpload with
      | .error e =>
          uploadFailResult 500 ("Error uploading images: " ++ e) db
            [Event.storageUpload env.clothingPath] [env.clothingPath]
      | .ok curl =>
          let cpid := extract_public_id curl
          let db1 : DB :=
            { db with clothes :=
                db.clothes ++ [{ id := env.newClothingId, user_id := eff,
                                 public_id := cpid, url := curl,
                                 upload_date := env.now }] }
          { status := 200, detail := "",
            person_id := none, person_url := none, person_public_id := none,
            clothing_id := some env.newClothingId, clothing_url := some curl,
            clothing_public_id := some cpid,
            db := db1,
            events := [Event.storageUpload env.clothingPath],
            tempCreated := [env.clothingPath], tempDeleted := [],
            bgCleanup := [[env.clothingPath]] }

/-! Processing workflow: the `process_try_on` handler. -/

/-- Collaborator outcomes for one processing request. -/
structure ProcessEnv where
  connOk : Bool
  personPath : String
  clothingPath : String
  resultPath : String
  downloadPersonOk : Bool
  downloadClothingOk : Bool
  inferOk : Bool
  resultUpload : Except String String
  newResultId : Int
  now : Nat

/-- Outcome of a processing request. -/
structure ProcessResult where
  status : Nat
  detail : String
  result_id : Option Int
  result_url : Option String
  person_url : Option String
  clothing_url : Option String
  eff_user_id : Option Int
  db : DB
  events : List Event
  tempCreated : List String
  tempDeleted : List String
  bgCleanup : List (List String)

/-- Failure outcome of a processing request: any exception in the handler
body is caught by the blanket `except` and re-raised as a 500; the
transaction is rolled back; temporary files are not removed. -/
def procFailResult (status : Nat) (detail : String) (db : DB)
    (events : List Event) (temps : List String) : ProcessResult :=
  { status := status, detail := detail,
    result_id := none, result_url := none, person_url := none,
    clothing_url := none, eff_user_id := none,
    db := db, events := events, tempCreated := temps, tempDeleted := [],
    bgCleanup := [] }

/-- The owner fallback in `process_try_on`: an explicitly resolved user id
wins; otherwise the person image's stored owner is used when truthy. -/
def pyFallbackOwner (explicit stored : Option Int) : Option Int :=
  match explicit with
  | some u => some u
  | none =>
      match stored with
      | some w => if w = 0 then none else some w
      | none => none

/-- Model of the `process_try_on` handler. -/
def process_try_on (env : ProcessEnv) (db : DB) (person_id clothing_id : Int)
    (user_id : Option Int) : ProcessResult :=
  if env.connOk = false then
    procFailResult 500
      ("Error processing try-on: " ++ httpExcStr 500 "Database connection failed") db [] []
  else
    let eff := resolveUserId db user_id
    match db.users_image.find? (fun r => r.id == person_id) with
    | none =>
        procFailResult 500
          ("Error processing try-on: " ++ httpExcStr 404 "Person image not found") db [] []
    | some prow =>
        match db.clothes.find? (fun r => r.id == clothing_id) with
        | none =>
            procFailResult 500
              ("Error processing try-on: " ++ httpExcStr 404 "Clothing image not found") db [] []
        | some crow =>
            let eff2 := pyFallbackOwner eff prow.user_id
            if env.downloadPersonOk = false then
              procFailResult 500 "Error processing try-on: dependency failure" db [] []
            else if env.downloadClothingOk = false then
              procFailResult 500 "Error processing try-on: dependency failure" db []
                [env.personPath]
            else if env.inferOk = false then
              procFailResult 500 "Error processing try-on: dependency failure" db
                [Event.synthesize env.personPath env.clothingPath]
                [env.personPath, env.clothingPath]
            else
              match env.resultUpload with
              | .error e =>
                  procFailResult 500 ("Error processing try-on: " ++ e) db
                    [Event.synthesize env.personPath env.clothingPath,
                     Event.storageUpload env.resultPath]
                    [env.personPath, env.clothingPath, env.resultPath]
              | .ok rurl =>
                  let rpid := extract_public_id rurl
                  { status := 200, detail := "",
                    result_id := some env.newResultId, result_url := some rurl,
                    person_url := some prow.url, clothing_url := some crow.url,
                    eff_user_id := eff2,
                    db := { db with tryOnImage := db.tryOnImage ++
                        [{ id := env.newResultId, user_id := eff2,
                           user_image_id := person_id, clothes_id := clothing_id,
                           public_id := rpid, url := rurl, created_at := env.now }] },
                    events := [Event.synthesize env.personPath env.clothingPath,
                               Event.storageUpload env.resultPath],
                    tempCreated := [env.personPath, env.clothingPath, env.resultPath],
                    tempDeleted := [],
                    bgCleanup := [[env.personPath, env.clothingPath, env.resultPath]] }

/-! History-deletion workflow: the `delete_history` handler. -/

/-- Model of `delete_image` in `cloudinary_service.py`: a missing remote
object (or any storage error) is swallowed and reported as `None`. -/
def delete_image (resourceFound : Bool) (public_id : String) : Option String :=
  if resourceFound then some public_id else none

/-- Collaborator outcomes for one delete-history request. -/
structure DeleteEnv where
  storageFound : Bool
  dbDeleteOk : Bool

/-- Outcome of a delete-history request. -/
structure DeleteResult where
  status : Nat
  detail : String
  db : DB
  events : List Event
deriving Repr, DecidableEq

/-- Model of the `delete_history` handler. -/
def delete_history (env : DeleteEnv) (db : DB) (result_id : Int) : DeleteResult :=
  match db.tryOnImage.find? (fun r => r.id == result_id) with
  | none => { status := 404, detail := "Result not found", db := db, events := [] }
  | some row =>
      let storageEvents : List Event :=
        if row.public_id != "" then
          let _ := delete_image env.storageFound row.public_id
          [Event.storageDelete row.public_id]
        else []
      let events := storageEvents ++ [Event.dbDelete "tryOnImage" result_id]
      if env.dbDeleteOk then
        { status := 200, detail := "Result deleted successfully",
          db := { db with tryOnImage := db.tryOnImage.filter (fun r => r.id != result_id) },
          events := events }
      else
        { status := 500, detail := "Failed to delete result", db := db, events := events }

/-! Feedback workflow: `generate_new_feedback` and
`retrieve_or_generate_feedback`. -/

/-- The payload carried in a feedback response: a decoded object or the raw
stored string when decoding failed. -/
inductive RespPayload where
  | obj (p : Payload)
  | raw (s : String)
deriving DecidableEq

/-- Collaborator outcomes for one feedback request: the scratch path, the
image download outcome, the engine's payload, and the persistence outcome. -/
structure FeedbackEnv where
  tempPath : String
  downloadOk : Bool
  genPayload : Payload
  insertOk : Bool
  newFeedbackId : Int
  now : Nat

/-- Outcome of a feedback request. -/
structure GenResult where
  status : Nat
  detail : String
  feedback : Option RespPayload
  formatted : Option String
  servedRow : Option FeedbackRow
  db : DB
  events : List Event
  tempCreated : List String
  tempDeleted : List String
  bgCleanup : List (List String)

/-- The 404 outcome of `generate_new_feedback`, raised before the `try`. -/
def genNotFound (db : DB) : GenResult :=
  { status := 404, detail := "Try-on result not found",
    feedback := none, formatted := none, servedRow := none,
    db := db, events := [], tempCreated := [], tempDeleted := [], bgCleanup := [] }

/-- Model of the `generate_new_feedback` handler.  `dumpsPlain` abstracts the
bare `json.dumps` used when persisting the payload.  The `finally` block
deletes the temporary files synchronously on every path, including success. -/
def generate_new_feedback (parse : String → Option Payload) (dumps : Payload → String)
    (numStr : ℚ → String) (dumpsPlain : Payload → String) (env : FeedbackEnv)
    (db : DB) (result_id : Int) : GenResult :=
  match db.tryOnImage.find? (fun r => r.id == result_id) with
  | none => genNotFound db
  | some row =>
      if row.url == "" then genNotFound db
      else if env.downloadOk = false then
        { status := 500, detail := "Error generating fashion feedback: dependency failure",
          feedback := none, formatted := none, servedRow := none,
          db := db, events := [], tempCreated := [], tempDeleted := [], bgCleanup := [] }
      else
        let db' : DB :=
          if env.insertOk then
            { db with feedback :=
                db.feedback ++ [{ id := env.newFeedbackId, tryOnImage_id := result_id,
                                  feedback := dumpsPlain env.genPayload,
                                  created_at := env.now }] }
          else db
        { status := 200, detail := "Feedback generated successfully",
          feedback := some (RespPayload.obj env.genPayload),
          formatted := some (format_feedback_for_ui parse dumps numStr (FB.obj env.genPayload)),
          servedRow := none, db := db',
          events := [Event.generateFeedback env.tempPath],
          tempCreated := [env.tempPath], tempDeleted := [env.tempPath],
          bgCleanup := [[env.tempPath]] }

/-- The step used to model `ORDER BY created_at DESC LIMIT 1`: keep the row
with the strictly larger creation timestamp. -/
def laterMax (a b : FeedbackRow) : FeedbackRow :=
  if a.created_at < b.created_at then b else a

/-- The row returned by `ORDER BY created_at DESC LIMIT 1`, if any. -/
def maxCreatedRow : List FeedbackRow → Option FeedbackRow
  | [] => none
  | r :: rs => some (rs.foldl laterMax r)

/-- Model of the `retrieve_or_generate_feedback` handler. -/
def retrieve_or_generate_feedback (parse : String → Option Payload)
    (dumps : Payload → String) (numStr : ℚ → String) (dumpsPlain : Payload → String)
    (env : FeedbackEnv) (db : DB) (result_id : Int) : GenResult :=
  let rows :=
    if db.tryOnImage.any (fun t => t.id == result_id) then
      db.feedback.filter (fun f => f.tryOnImage_id == result_id)
    else []
  match maxCreatedRow rows with
  | some fr =>
      { status := 200, detail := "Feedback retrieved successfully",
        feedback := some (match parse fr.feedback with
          | some p => RespPayload.obj p
          | none => RespPayload.raw fr.feedback),
        formatted := some (format_feedback_for_ui parse dumps numStr (FB.str fr.feedback)),
        servedRow := some fr, db := db, events := [],
        tempCreated := [], tempDeleted := [], bgCleanup := [] }
  | none => generate_new_feedback parse dumps numStr dumpsPlain env db result_id

/-! Auxiliary lemmas about `laterMax` and `maxCreatedRow`. -/

theorem laterMax_eq_or (a b : FeedbackRow) : laterMax a b = a ∨ laterMax a b = b := by
  unfold laterMax
  split
  · exact Or.inr rfl
  · exact Or.inl rfl

theorem le_laterMax_left (a b : FeedbackRow) :
    a.created_at ≤ (laterMax a b).created_at := by
  unfold laterMax
  split
  · omega
  · exact le_refl _

theorem le_laterMax_right (a b : FeedbackRow) :
    b.created_at ≤ (laterMax a b).created_at := by
  unfold laterMax
  split
  · exact le_refl _
  · omega

theorem foldl_laterMax_mem : ∀ (rs : List FeedbackRow) (r : FeedbackRow),
    rs.foldl laterMax r ∈ r :: rs := by
  intro rs
  induction rs with
  | nil => intro r; simp
  | cons b bs ih =>
      intro r
      rw [List.foldl_cons]
      rcases List.mem_cons.mp (ih (laterMax r b)) with h | h
      · rw [h]
        rcases laterMax_eq_or r b with h' | h'
        · rw [h']; exact List.mem_cons_self _ _
        · rw [h']; exact List.mem_cons_of_mem _ (List.mem_cons_self _ _)
      · exact List.mem_cons_of_mem _ (List.mem_cons_of_mem _ h)

theorem foldl_laterMax_ub : ∀ (rs : List FeedbackRow) (r x : FeedbackRow),
    x ∈ r :: rs → x.created_at ≤ (rs.foldl laterMax r).created_at := by
  intro rs
  induction rs with
  | nil =>
      intro r x hx
      simp at hx
      subst hx
      exact le_refl _
  | cons b bs ih =>
      intro r x hx
      rw [List.foldl_cons]
      have hstep : (laterMax r b).created_at ≤ (bs.foldl laterMax (laterMax r b)).created_at :=
        ih (laterMax r b) (laterMax r b) (List.mem_cons_self _ _)
      rcases List.mem_cons.mp hx with h | h
      · rw [h]; exact le_trans (le_laterMax_left r b) hstep
      · rcases List.mem_cons.mp h with h' | h'
        · rw [h']; exact le_trans (le_laterMax_right r b) hstep
        · exact ih (laterMax r b) x (List.mem_cons_of_mem _ h')

/-! Claim C1.  The spec says a missing person/clothing row makes processing
fail with a not-found failure; the code raises `HTTPException(404)` inside
the handler's `try`, whose blanket `except Exception` re-raises it as a 500
wrapping the message, so the caller sees 500, not 404.  Rows and uploads are
still zero. -/

/-- A processing environment in which every collaborator would succeed. -/
def procEnvC1 : ProcessEnv :=
  ⟨true, "t/p.jpg", "t/c.jpg", "t/r.png", true, true, true,
    Except.ok "http://res/r.png", 1, 9⟩

/-- A database holding person image 5 and no clothing image 9. -/
def dbC1 : DB := ⟨[], [⟨5, none, "p", "http://res/p.jpg", 0⟩], [], [], []⟩

/-- Claim C1 (code bug): processing `person_id=5, clothing_id=9` when
clothing 9 is absent creates zero `TryOnResult` rows and performs zero
storage uploads, but the request fails with HTTP 500 wrapping the internal
404 message, not with a not-found failure. -/
theorem c1_missing_clothing_wrapped_as_500 :
    (process_try_on procEnvC1 dbC1 5 9 none).status = 500 ∧
    (process_try_on procEnvC1 dbC1 5 9 none).status ≠ 404 ∧
    (process_try_on procEnvC1 dbC1 5 9 none).detail =
      "Error processing try-on: 404: Clothing image not found" ∧
    (process_try_on procEnvC1 dbC1 5 9 none).db = dbC1 ∧
    uploadCalls (process_try_on procEnvC1 dbC1 5 9 none).events = 0 := by
  refine ⟨rfl, by decide, ?_, rfl, rfl⟩
  decide

/-! Claim C5: deleting a nonexistent result id. -/

/-- Claim C5: a delete-history request whose result id has no matching
`tryOnImage` row returns 404, makes zero storage-delete calls, and leaves
the database unchanged. -/
theorem c5_delete_missing_result (env : DeleteEnv) (db : DB) (result_id : Int)
    (h : db.tryOnImage.find? (fun r => r.id == result_id) = none) :
    (delete_history env db result_id).status = 404 ∧
    storageDeleteCalls (delete_history env db result_id).events = 0 ∧
    (delete_history env db result_id).db = db := by
  simp [delete_history, h, storageDeleteCalls]

/-- Witness for C5 at a concrete empty database. -/
theorem c5_delete_missing_result_witness :
    (delete_history ⟨true, true⟩ ⟨[], [], [], [], []⟩ 1).status = 404 ∧
    storageDeleteCalls (delete_history ⟨true, true⟩ ⟨[], [], [], [], []⟩ 1).events = 0 ∧
    (delete_history ⟨true, true⟩ ⟨[], [], [], [], []⟩ 1).db = ⟨[], [], [], [], []⟩ :=
  c5_delete_missing_result ⟨true, true⟩ ⟨[], [], [], [], []⟩ 1 rfl

/-! Claim C4: deleting an existing result. -/

/-- Counterexample to C4 as stated: a matching `tryOnImage` row whose stored
storage identifier is the empty string is deleted with zero storage-delete
calls, because the handler guards the storage call with Python truthiness. -/
theorem c4_counterexample :
    (DB.mk [] [] [] [⟨7, none, 1, 2, "", "http://x/y.png", 5⟩] []).tryOnImage.find?
        (fun r => r.id == 7) = some ⟨7, none, 1, 2, "", "http://x/y.png", 5⟩ ∧
    storageDeleteCalls (delete_history ⟨true, true⟩
        (DB.mk [] [] [] [⟨7, none, 1, 2, "", "http://x/y.png", 5⟩] []) 7).events = 0 ∧
    (delete_history ⟨true, true⟩
        (DB.mk [] [] [] [⟨7, none, 1, 2, "", "http://x/y.png", 5⟩] []) 7).status = 200 :=
  ⟨rfl, rfl, rfl⟩

/-- Claim C4 (amended): when the matching row's storage identifier is
nonempty, exactly one storage delete is attempted, before the database
delete; the outcome of the storage delete (remote object found or not) does
not change the request's behavior; and the database delete proceeds. -/
theorem c4_delete_existing_result (env : DeleteEnv) (db : DB) (result_id : Int)
    (row : TryOnRow) (hfind : db.tryOnImage.find? (fun r => r.id == result_id) = some row)
    (hpid : row.public_id ≠ "") :
    (delete_history env db result_id).events =
      [Event.storageDelete row.public_id, Event.dbDelete "tryOnImage" result_id] ∧
    delete_history ⟨false, env.dbDeleteOk⟩ db result_id =
      delete_history ⟨true, env.dbDeleteOk⟩ db result_id ∧
    (env.dbDeleteOk = true →
      (delete_history env db result_id).status = 200 ∧
      (delete_history env db result_id).db.tryOnImage =
        db.tryOnImage.filter (fun r => r.id != result_id)) := by
  obtain ⟨sf, dok⟩ := env
  cases dok <;>
    simp [delete_history, hfind, hpid]

/-- Witness for C4 at a concrete database. -/
theorem c4_delete_existing_result_witness :
    (delete_history ⟨false, true⟩
        (DB.mk [] [] [] [⟨7, none, 1, 2, "pid7", "http://x/y.png", 5⟩] []) 7).events =
      [Event.storageDelete "pid7", Event.dbDelete "tryOnImage" 7] ∧
    (delete_history ⟨false, true⟩
        (DB.mk [] [] [] [⟨7, none, 1, 2, "pid7", "http://x/y.png", 5⟩] []) 7).status = 200 := by
  have h := c4_delete_existing_result ⟨false, true⟩
    (DB.mk [] [] [] [⟨7, none, 1, 2, "pid7", "http://x/y.png", 5⟩] []) 7
    ⟨7, none, 1, 2, "pid7", "http://x/y.png", 5⟩ rfl (by decide)
  exact ⟨h.1, (h.2.2 rfl).1⟩

/-! Claim C9: clothing-only intake. -/

/-- Claim C9: an intake request supplying only a clothing image and no user
id succeeds with `clothing_id`/`clothing_url` set, omits the person fields,
creates no `users_image` row, and an intake with zero images is rejected
with a 400 validation failure. -/
theorem c9_clothing_only_intake (env : UploadEnv) (db : DB) (curl : String)
    (hconn : env.connOk = true) (hcl : env.clothingUpload = Except.ok curl) :
    (upload_images env db false true none).status = 200 ∧
    (upload_images env db false true none).clothing_id = some env.newClothingId ∧
    (upload_images env db false true none).clothing_url = some curl ∧
    (upload_images env db false true none).person_id = none ∧
    (upload_images env db false true none).person_url = none ∧
    (upload_images env db false true none).db.users_image = db.users_image ∧
    (∀ (env2 : UploadEnv) (db2 : DB) (uid2 : Option Int),
      (upload_images env2 db2 false false uid2).status = 400) := by
  refine ⟨?_, ?_, ?_, ?_, ?_, ?_, fun env2 db2 uid2 => ?_⟩ <;>
    simp [upload_images, hconn, hcl, uploadFailResult]

/-- Witness for C9 at a concrete environment and empty database. -/
theorem c9_clothing_only_intake_witness :
    (upload_images ⟨true, "t/p.png", "t/c.png", Except.ok "pu", Except.ok "http://res/c.png", 1, 2, 0⟩
        ⟨[], [], [], [], []⟩ false true none).status = 200 ∧
    (upload_images ⟨true, "t/p.png", "t/c.png", Except.ok "pu", Except.ok "http://res/c.png", 1, 2, 0⟩
        ⟨[], [], [], [], []⟩ false true none).clothing_id = some 2 ∧
    (upload_images ⟨true, "t/p.png", "t/c.png", Except.ok "pu", Except.ok "http://res/c.png", 1, 2, 0⟩
        ⟨[], [], [], [], []⟩ false true none).clothing_url = some "http://res/c.png" ∧
    (upload_images ⟨true, "t/p.png", "t/c.png", Except.ok "pu", Except.ok "http://res/c.png", 1, 2, 0⟩
        ⟨[], [], [], [], []⟩ false true none).person_id = none ∧
    (upload_images ⟨true, "t/p.png", "t/c.png", Except.ok "pu", Except.ok "http://res/c.png", 1, 2, 0⟩
        ⟨[], [], [], [], []⟩ false true none).person_url = none ∧
    (upload_images ⟨true, "t/p.png", "t/c.png", Except.ok "pu", Except.ok "http://res/c.png", 1, 2, 0⟩
        ⟨[], [], [], [], []⟩ false true none).db.users_image = [] ∧
    (∀ (env2 : UploadEnv) (db2 : DB) (uid2 : Option Int),
      (upload_images env2 db2 false false uid2).status = 400) :=
  c9_clothing_only_intake
    ⟨true, "t/p.png", "t/c.png", Except.ok "pu", Except.ok "http://res/c.png", 1, 2, 0⟩
    ⟨[], [], [], [], []⟩ "http://res/c.png" rfl rfl

/-! Claim C6: a feedback persistence failure is swallowed. -/

/-- Claim C6: when inserting the generated feedback row fails, the request
still succeeds: it returns the generated payload and its formatted text, and
the database is unchanged. -/
theorem c6_feedback_persist_failure_swallowed (parse : String → Option Payload)
    (dumps : Payload → String) (numStr : ℚ → String) (dumpsPlain : Payload → String)
    (env : FeedbackEnv) (db : DB) (rid : Int) (row : TryOnRow)
    (hfind : db.tryOnImage.find? (fun r => r.id == rid) = some row)
    (hurl : row.url ≠ "") (hdl : env.downloadOk = true) (hins : env.insertOk = false) :
    (generate_new_feedback parse dumps numStr dumpsPlain env db rid).status = 200 ∧
    (generate_new_feedback parse dumps numStr dumpsPlain env db rid).feedback =
      some (RespPayload.obj env.genPayload) ∧
    (generate_new_feedback parse dumps numStr dumpsPlain env db rid).formatted =
      some (format_feedback_for_ui parse dumps numStr (FB.obj env.genPayload)) ∧
    (generate_new_feedback parse dumps numStr dumpsPlain env db rid).db = db := by
  simp [generate_new_feedback, hfind, hurl, hdl, hins]

/-- Witness for C6 at a concrete environment with a failing insert. -/
theorem c6_feedback_persist_failure_swallowed_witness :
    (generate_new_feedback (fun _ => none) (fun _ => "d") (fun _ => "n") (fun _ => "j")
        ⟨"t/f.jpg", true, ⟨some "good", none, none⟩, false, 1, 3⟩
        ⟨[], [], [], [⟨3, none, 1, 2, "pid", "http://res/r.png", 0⟩], []⟩ 3).status = 200 ∧
    (generate_new_feedback (fun _ => none) (fun _ => "d") (fun _ => "n") (fun _ => "j")
        ⟨"t/f.jpg", true, ⟨some "good", none, none⟩, false, 1, 3⟩
        ⟨[], [], [], [⟨3, none, 1, 2, "pid", "http://res/r.png", 0⟩], []⟩ 3).feedback =
      some (RespPayload.obj ⟨some "good", none, none⟩) ∧
    (generate_new_feedback (fun _ => none) (fun _ => "d") (fun _ => "n") (fun _ => "j")
        ⟨"t/f.jpg", true, ⟨some "good", none, none⟩, false, 1, 3⟩
        ⟨[], [], [], [⟨3, none, 1, 2, "pid", "http://res/r.png", 0⟩], []⟩ 3).formatted =
      some (format_feedback_for_ui (fun _ => none) (fun _ => "d") (fun _ => "n")
        (FB.obj ⟨some "good", none, none⟩)) ∧
    (generate_new_feedback (fun _ => none) (fun _ => "d") (fun _ => "n") (fun _ => "j")
        ⟨"t/f.jpg", true, ⟨some "good", none, none⟩, false, 1, 3⟩
        ⟨[], [], [], [⟨3, none, 1, 2, "pid", "http://res/r.png", 0⟩], []⟩ 3).db =
      ⟨[], [], [], [⟨3, none, 1, 2, "pid", "http://res/r.png", 0⟩], []⟩ :=
  c6_feedback_persist_failure_swallowed (fun _ => none) (fun _ => "d") (fun _ => "n")
    (fun _ => "j") ⟨"t/f.jpg", true, ⟨some "good", none, none⟩, false, 1, 3⟩
    ⟨[], [], [], [⟨3, none, 1, 2, "pid", "http://res/r.png", 0⟩], []⟩ 3
    ⟨3, none, 1, 2, "pid", "http://res/r.png", 0⟩ rfl (by decide) rfl rfl

/-! Claim C2: feedback retrieve-or-generate. -/

/-- Counterexample to C2 as stated: for result id 3 with no matching
`tryOnImage` row there are zero existing feedback rows, yet
retrieve-or-generate performs zero generation calls (it fails 404), not
exactly one. -/
theorem c2_counterexample :
    (DB.mk [] [] [] [] []).feedback.filter (fun f => f.tryOnImage_id == 3) = [] ∧
    genCalls (retrieve_or_generate_feedback (fun _ => none) (fun _ => "d") (fun _ => "n")
        (fun _ => "j") ⟨"t/f.jpg", true, ⟨none, none, none⟩, true, 1, 0⟩
        (DB.mk [] [] [] [] []) 3).events = 0 ∧
    (retrieve_or_generate_feedback (fun _ => none) (fun _ => "d") (fun _ => "n")
        (fun _ => "j") ⟨"t/f.jpg", true, ⟨none, none, none⟩, true, 1, 0⟩
        (DB.mk [] [] [] [] []) 3).status = 404 :=
  ⟨rfl, rfl, rfl⟩

/-- Claim C2 (amended): for a result id with a matching `tryOnImage` row
whose stored URL is nonempty and whose image download succeeds:
with zero existing feedback rows, retrieve-or-generate performs exactly one
generation call and persists at most one new feedback row; with at least one
existing row it performs zero generation calls and serves a stored row of
maximal creation timestamp. -/
theorem c2_retrieve_or_generate (parse : String → Option Payload)
    (dumps : Payload → String) (numStr : ℚ → String) (dumpsPlain : Payload → String)
    (env : FeedbackEnv) (db : DB) (rid : Int) (row : TryOnRow)
    (hfind : db.tryOnImage.find? (fun r => r.id == rid) = some row)
    (hurl : row.url ≠ "") (hdl : env.downloadOk = true) :
    (db.feedback.filter (fun f => f.tryOnImage_id == rid) = [] →
      genCalls (retrieve_or_generate_feedback parse dumps numStr dumpsPlain env db rid).events = 1 ∧
      (retrieve_or_generate_feedback parse dumps numStr dumpsPlain env db rid).db.feedback.length ≤
        db.feedback.length + 1) ∧
    (db.feedback.filter (fun f => f.tryOnImage_id == rid) ≠ [] →
      genCalls (retrieve_or_generate_feedback parse dumps numStr dumpsPlain env db rid).events = 0 ∧
      ∃ fr, (retrieve_or_generate_feedback parse dumps numStr dumpsPlain env db rid).servedRow = some fr ∧
        fr ∈ db.feedback.filter (fun f => f.tryOnImage_id == rid) ∧
        ∀ g ∈ db.feedback.filter (fun f => f.tryOnImage_id == rid),
          g.created_at ≤ fr.created_at) := by
  have hany : db.tryOnImage.any (fun t => t.id == rid) = true := by
    have hp := List.find?_some hfind
    have hm := List.mem_of_find?_eq_some hfind
    rw [List.any_eq_true]
    exact ⟨row, hm, hp⟩
  constructor
  · intro hA
    have hgen : retrieve_or_generate_feedback parse dumps numStr dumpsPlain env db rid
        = generate_new_feedback parse dumps numStr dumpsPlain env db rid := by
      simp [retrieve_or_generate_feedback, hany, hA, maxCreatedRow]
    rw [hgen]
    cases hins : env.insertOk <;>
      simp [generate_new_feedback, hfind, hurl, hdl, hins, genCalls]
  · intro hB
    obtain ⟨f0, fs, hrows⟩ := List.exists_cons_of_ne_nil hB
    have hres : (retrieve_or_generate_feedback parse dumps numStr dumpsPlain env db rid).servedRow
        = some (fs.foldl laterMax f0) ∧
        (retrieve_or_generate_feedback parse dumps numStr dumpsPlain env db rid).events = [] := by
      constructor <;> simp [retrieve_or_generate_feedback, hany, hrows, maxCreatedRow]
    refine ⟨by rw [hres.2]; rfl, fs.foldl laterMax f0, hres.1, ?_, ?_⟩
    · rw [hrows]; exact foldl_laterMax_mem fs f0
    · intro g hg
      rw [hrows] at hg
      exact foldl_laterMax_ub fs f0 g hg

/-- Witness for the amended C2 at a concrete database holding result row 3
with two feedback rows. -/
theorem c2_retrieve_or_generate_witness :
    ((DB.mk [] [] [] [⟨3, none, 1, 2, "pid", "http://res/r.png", 0⟩]
        [⟨1, 3, "fb1", 5⟩, ⟨2, 3, "fb2", 9⟩]).feedback.filter
          (fun f => f.tryOnImage_id == 3) = [] →
      genCalls (retrieve_or_generate_feedback (fun _ => none) (fun _ => "d") (fun _ => "n")
        (fun _ => "j") ⟨"t/f.jpg", true, ⟨none, none, none⟩, true, 7, 0⟩
        (DB.mk [] [] [] [⟨3, none, 1, 2, "pid", "http://res/r.png", 0⟩]
          [⟨1, 3, "fb1", 5⟩, ⟨2, 3, "fb2", 9⟩]) 3).events = 1 ∧
      (retrieve_or_generate_feedback (fun _ => none) (fun _ => "d") (fun _ => "n")
        (fun _ => "j") ⟨"t/f.jpg", true, ⟨none, none, none⟩, true, 7, 0⟩
        (DB.mk [] [] [] [⟨3, none, 1, 2, "pid", "http://res/r.png", 0⟩]
          [⟨1, 3, "fb1", 5⟩, ⟨2, 3, "fb2", 9⟩]) 3).db.feedback.length ≤
        (DB.mk [] [] [] [⟨3, none, 1, 2, "pid", "http://res/r.png", 0⟩]
          [⟨1, 3, "fb1", 5⟩, ⟨2, 3, "fb2", 9⟩]).feedback.length + 1) ∧
    ((DB.mk [] [] [] [⟨3, none, 1, 2, "pid", "http://res/r.png", 0⟩]
        [⟨1, 3, "fb1", 5⟩, ⟨2, 3, "fb2", 9⟩]).feedback.filter
          (fun f => f.tryOnImage_id == 3) ≠ [] →
      genCalls (retrieve_or_generate_feedback (fun _ => none) (fun _ => "d") (fun _ => "n")
        (fun _ => "j") ⟨"t/f.jpg", true, ⟨none, none, none⟩, true, 7, 0⟩
        (DB.mk [] [] [] [⟨3, none, 1, 2, "pid", "http://res/r.png", 0⟩]
          [⟨1, 3, "fb1", 5⟩, ⟨2, 3, "fb2", 9⟩]) 3).events = 0 ∧
      ∃ fr, (retrieve_or_generate_feedback (fun _ => none) (fun _ => "d") (fun _ => "n")
        (fun _ => "j") ⟨"t/f.jpg", true, ⟨none, none, none⟩, true, 7, 0⟩
        (DB.mk [] [] [] [⟨3, none, 1, 2, "pid", "http://res/r.png", 0⟩]
          [⟨1, 3, "fb1", 5⟩, ⟨2, 3, "fb2", 9⟩]) 3).servedRow = some fr ∧
        fr ∈ (DB.mk [] [] [] [⟨3, none, 1, 2, "pid", "http://res/r.png", 0⟩]
          [⟨1, 3, "fb1", 5⟩, ⟨2, 3, "fb2", 9⟩]).feedback.filter
            (fun f => f.tryOnImage_id == 3) ∧
        ∀ g ∈ (DB.mk [] [] [] [⟨3, none, 1, 2, "pid", "http://res/r.png", 0⟩]
          [⟨1, 3, "fb1", 5⟩, ⟨2, 3, "fb2", 9⟩]).feedback.filter
            (fun f => f.tryOnImage_id == 3),
          g.created_at ≤ fr.created_at) :=
  c2_retrieve_or_generate (fun _ => none) (fun _ => "d") (fun _ => "n") (fun _ => "j")
    ⟨"t/f.jpg", true, ⟨none, none, none⟩, true, 7, 0⟩
    (DB.mk [] [] [] [⟨3, none, 1, 2, "pid", "http://res/r.png", 0⟩]
      [⟨1, 3, "fb1", 5⟩, ⟨2, 3, "fb2", 9⟩]) 3
    ⟨3, none, 1, 2, "pid", "http://res/r.png", 0⟩ rfl (by decide) rfl

/-! Claim C3: temporary-file lifecycle. -/

theorem upload_cleanup_spec (env : UploadEnv) (db : DB) (p c : Bool) (uid : Option Int) :
    ((upload_images env db p c uid).status = 200 →
      (upload_images env db p c uid).bgCleanup = [(upload_images env db p c uid).tempCreated] ∧
      (upload_images env db p c uid).tempDeleted = []) ∧
    ((upload_images env db p c uid).status ≠ 200 →
      (upload_images env db p c uid).tempDeleted = [] ∧
      (upload_images env db p c uid).bgCleanup = []) := by
  obtain ⟨connOk, pp, cp, pu, cu, npi, nci, now⟩ := env
  cases p <;> cases c <;> cases connOk <;> rcases pu with e | v <;> rcases cu with e2 | v2 <;>
    simp [upload_images, uploadFailResult]

theorem process_cleanup_spec (env : ProcessEnv) (db : DB) (pid cid : Int)
    (uid : Option Int) :
    ((process_try_on env db pid cid uid).status = 200 →
      (process_try_on env db pid cid uid).bgCleanup =
        [(process_try_on env db pid cid uid).tempCreated] ∧
      (process_try_on env db pid cid uid).tempDeleted = []) ∧
    ((process_try_on env db pid cid uid).status ≠ 200 →
      (process_try_on env db pid cid uid).tempDeleted = [] ∧
      (process_try_on env db pid cid uid).bgCleanup = []) := by
  obtain ⟨connOk, pp, cp, rp, dp, dc, io, ru, nid, now⟩ := env
  cases connOk with
  | false => simp [process_try_on, procFailResult]
  | true =>
      cases hf1 : db.users_image.find? (fun r => r.id == pid) with
      | none => simp [process_try_on, hf1, procFailResult]
      | some prow =>
          cases hf2 : db.clothes.find? (fun r => r.id == cid) with
          | none => simp [process_try_on, hf1, hf2, procFailResult]
          | some crow =>
              cases dp <;> cases dc <;> cases io <;> rcases ru with e | v <;>
                simp [process_try_on, hf1, hf2, procFailResult]

theorem feedback_cleanup_spec (parse : String → Option Payload) (dumps : Payload → String)
    (numStr : ℚ → String) (dumpsPlain : Payload → String) (env : FeedbackEnv)
    (db : DB) (rid : Int) :
    (generate_new_feedback parse dumps numStr dumpsPlain env db rid).tempDeleted =
      (generate_new_feedback parse dumps numStr dumpsPlain env db rid).tempCreated ∧
    ((generate_new_feedback parse dumps numStr dumpsPlain env db rid).status = 200 →
      (generate_new_feedback parse dumps numStr dumpsPlain env db rid).bgCleanup =
        [(generate_new_feedback parse dumps numStr dumpsPlain env db rid).tempCreated]) ∧
    ((generate_new_feedback parse dumps numStr dumpsPlain env db rid).status ≠ 200 →
      (generate_new_feedback parse dumps numStr dumpsPlain env db rid).bgCleanup = []) := by
  obtain ⟨tp, dok, gp, iok, nid, now⟩ := env
  cases hf : db.tryOnImage.find? (fun r => r.id == rid) with
  | none => simp [generate_new_feedback, hf, genNotFound]
  | some row =>
      by_cases hurl : row.url = ""
      · simp [generate_new_feedback, hf, hurl, genNotFound]
      · cases dok <;> cases iok <;> simp [generate_new_feedback, hf, hurl, genNotFound]

/-- Counterexample to C3 as stated: an intake request whose clothing upload
fails after the temporary file was written performs no synchronous deletion
on the error path and schedules no cleanup: the file is simply leaked. -/
theorem c3_counterexample :
    (upload_images ⟨true, "t/p.png", "t/c.png", Except.ok "u", Except.error "upload failed",
        1, 2, 0⟩ ⟨[], [], [], [], []⟩ false true none).status = 500 ∧
    (upload_images ⟨true, "t/p.png", "t/c.png", Except.ok "u", Except.error "upload failed",
        1, 2, 0⟩ ⟨[], [], [], [], []⟩ false true none).tempCreated = ["t/c.png"] ∧
    (upload_images ⟨true, "t/p.png", "t/c.png", Except.ok "u", Except.error "upload failed",
        1, 2, 0⟩ ⟨[], [], [], [], []⟩ false true none).tempDeleted = [] ∧
    (upload_images ⟨true, "t/p.png", "t/c.png", Except.ok "u", Except.error "upload failed",
        1, 2, 0⟩ ⟨[], [], [], [], []⟩ false true none).bgCleanup = [] :=
  ⟨rfl, rfl, rfl, rfl⟩

/-- Claim C3 (amended): intake and processing schedule asynchronous deletion
of their temporary files only on the success path and delete nothing
synchronously; on their error paths the files are not deleted at all.
Feedback generation deletes its temporary files synchronously on every path
(on success as well, via its `finally` block, in addition to scheduling an
asynchronous cleanup). -/
theorem c3_temp_file_cleanup (uenv : UploadEnv) (penv : ProcessEnv)
    (parse : String → Option Payload) (dumps : Payload → String) (numStr : ℚ → String)
    (dumpsPlain : Payload → String) (fenv : FeedbackEnv) (db1 db2 db3 : DB)
    (p c : Bool) (uid1 uid2 : Option Int) (pid cid rid : Int) :
    ((upload_images uenv db1 p c uid1).status = 200 →
      (upload_images uenv db1 p c uid1).bgCleanup =
        [(upload_images uenv db1 p c uid1).tempCreated] ∧
      (upload_images uenv db1 p c uid1).tempDeleted = []) ∧
    ((upload_images uenv db1 p c uid1).status ≠ 200 →
      (upload_images uenv db1 p c uid1).tempDeleted = [] ∧
      (upload_images uenv db1 p c uid1).bgCleanup = []) ∧
    ((process_try_on penv db2 pid cid uid2).status = 200 →
      (process_try_on penv db2 pid cid uid2).bgCleanup =
        [(process_try_on penv db2 pid cid uid2).tempCreated] ∧
      (process_try_on penv db2 pid cid uid2).tempDeleted = []) ∧
    ((process_try_on penv db2 pid cid uid2).status ≠ 200 →
      (process_try_on penv db2 pid cid uid2).tempDeleted = [] ∧
      (process_try_on penv db2 pid cid uid2).bgCleanup = []) ∧
    ((generate_new_feedback parse dumps numStr dumpsPlain fenv db3 rid).tempDeleted =
      (generate_new_feedback parse dumps numStr dumpsPlain fenv db3 rid).tempCreated) ∧
    ((generate_new_feedback parse dumps numStr dumpsPlain fenv db3 rid).status = 200 →
      (generate_new_feedback parse dumps numStr dumpsPlain fenv db3 rid).bgCleanup =
        [(generate_new_feedback parse dumps numStr dumpsPlain fenv db3 rid).tempCreated]) ∧
    ((generate_new_feedback parse dumps numStr dumpsPlain fenv db3 rid).status ≠ 200 →
      (generate_new_feedback parse dumps numStr dumpsPlain fenv db3 rid).bgCleanup = []) := by
  have hu := upload_cleanup_spec uenv db1 p c uid1
  have hp := process_cleanup_spec penv db2 pid cid uid2
  have hf := feedback_cleanup_spec parse dumps numStr dumpsPlain fenv db3 rid
  exact ⟨hu.1, hu.2, hp.1, hp.2, hf.1, hf.2.1, hf.2.2⟩

/-- Witness for the amended C3: a successful intake schedules the deferred
cleanup, a failed processing request deletes nothing, and a successful
feedback generation deletes its file synchronously. -/
theorem c3_temp_file_cleanup_witness :
    ((upload_images ⟨true, "t/p.png", "t/c.png", Except.ok "u1", Except.ok "u2", 1, 2, 0⟩
        ⟨[], [], [], [], []⟩ true false none).bgCleanup =
      [(upload_images ⟨true, "t/p.png", "t/c.png", Except.ok "u1", Except.ok "u2", 1, 2, 0⟩
        ⟨[], [], [], [], []⟩ true false none).tempCreated] ∧
     (upload_images ⟨true, "t/p.png", "t/c.png", Except.ok "u1", Except.ok "u2", 1, 2, 0⟩
        ⟨[], [], [], [], []⟩ true false none).tempDeleted = []) ∧
    ((process_try_on procEnvC1 dbC1 5 9 none).tempDeleted = [] ∧
     (process_try_on procEnvC1 dbC1 5 9 none).bgCleanup = []) ∧
    ((generate_new_feedback (fun _ => none) (fun _ => "d") (fun _ => "n") (fun _ => "j")
        ⟨"t/f.jpg", true, ⟨none, none, none⟩, true, 1, 0⟩
        ⟨[], [], [], [⟨3, none, 1, 2, "pid", "http://res/r.png", 0⟩], []⟩ 3).tempDeleted =
      (generate_new_feedback (fun _ => none) (fun _ => "d") (fun _ => "n") (fun _ => "j")
        ⟨"t/f.jpg", true, ⟨none, none, none⟩, true, 1, 0⟩
        ⟨[], [], [], [⟨3, none, 1, 2, "pid", "http://res/r.png", 0⟩], []⟩ 3).tempCreated ∧
     (generate_new_feedback (fun _ => none) (fun _ => "d") (fun _ => "n") (fun _ => "j")
        ⟨"t/f.jpg", true, ⟨none, none, none⟩, true, 1, 0⟩
        ⟨[], [], [], [⟨3, none, 1, 2, "pid", "http://res/r.png", 0⟩], []⟩ 3).bgCleanup =
      [(generate_new_feedback (fun _ => none) (fun _ => "d") (fun _ => "n") (fun _ => "j")
        ⟨"t/f.jpg", true, ⟨none, none, none⟩, true, 1, 0⟩
        ⟨[], [], [], [⟨3, none, 1, 2, "pid", "http://res/r.png", 0⟩], []⟩ 3).tempCreated]) := by
  have h := c3_temp_file_cleanup
    ⟨true, "t/p.png", "t/c.png", Except.ok "u1", Except.ok "u2", 1, 2, 0⟩ procEnvC1
    (fun _ => none) (fun _ => "d") (fun _ => "n") (fun _ => "j")
    ⟨"t/f.jpg", true, ⟨none, none, none⟩, true, 1, 0⟩
    ⟨[], [], [], [], []⟩ dbC1 ⟨[], [], [], [⟨3, none, 1, 2, "pid", "http://res/r.png", 0⟩], []⟩
    true false none none 5 9 3
  exact ⟨h.1 rfl, (h.2.2.2.1 (by decide)), h.2.2.2.2.1, h.2.2.2.2.2.1 rfl⟩

/-! Claim C7: unknown supplied user id. -/

theorem resolveUserId_not_mem (db : DB) (u : Int) (hu : u ∉ db.users) :
    resolveUserId db (some u) = none := by
  simp [resolveUserId, hu]

theorem mem_append_singleton {α : Type} {r x : α} {l : List α} (h : r ∈ l ++ [x]) :
    r ∈ l ∨ r = x := by
  rcases List.mem_append.mp h with h' | h'
  · exact Or.inl h'
  · exact Or.inr (List.mem_singleton.mp h')

/-- The `users_image` table after an intake request: unchanged, or extended
by one row owned by the resolved user id. -/
theorem upload_images_users_image_shape (env : UploadEnv) (db : DB) (p c : Bool)
    (uid : Option Int) :
    (upload_images env db p c uid).db.users_image = db.users_image ∨
    ∃ url, (upload_images env db p c uid).db.users_image =
      db.users_image ++ [⟨env.newPersonId, resolveUserId db uid, extract_public_id url,
        url, env.now⟩] := by
  obtain ⟨connOk, pp, cp, pu, cu, npi, nci, now⟩ := env
  cases p <;> cases c <;> cases connOk <;> rcases pu with e | v <;> rcases cu with e2 | v2 <;>
    simp [upload_images, uploadFailResult]

/-- The `clothes` table after an intake request: unchanged, or extended by
one row owned by the resolved user id. -/
theorem upload_images_clothes_shape (env : UploadEnv) (db : DB) (p c : Bool)
    (uid : Option Int) :
    (upload_images env db p c uid).db.clothes = db.clothes ∨
    ∃ url, (upload_images env db p c uid).db.clothes =
      db.clothes ++ [⟨env.newClothingId, resolveUserId db uid, extract_public_id url,
        url, env.now⟩] := by
  obtain ⟨connOk, pp, cp, pu, cu, npi, nci, now⟩ := env
  cases p <;> cases c <;> cases connOk <;> rcases pu with e | v <;> rcases cu with e2 | v2 <;>
    simp [upload_images, uploadFailResult]

/-- The `tryOnImage` table after a processing request: unchanged, or extended
by one row whose owner is the fallback of the resolved user id and the person
image's stored owner. -/
theorem process_tryOnImage_shape (env : ProcessEnv) (db : DB) (pid cid : Int)
    (uid : Option Int) :
    (process_try_on env db pid cid uid).db.tryOnImage = db.tryOnImage ∨
    ∃ prow url, db.users_image.find? (fun x => x.id == pid) = some prow ∧
      (process_try_on env db pid cid uid).db.tryOnImage =
        db.tryOnImage ++ [⟨env.newResultId,
          pyFallbackOwner (resolveUserId db uid) prow.user_id, pid, cid,
          extract_public_id url, url, env.now⟩] := by
  obtain ⟨connOk, pp, cp, rp, dp, dc, io, ru, nid, now⟩ := env
  cases connOk with
  | false => simp [process_try_on, procFailResult]
  | true =>
      cases hf1 : db.users_image.find? (fun r => r.id == pid) with
      | none => simp [process_try_on, hf1, procFailResult]
      | some prow =>
          cases hf2 : db.clothes.find? (fun r => r.id == cid) with
          | none => simp [process_try_on, hf1, hf2, procFailResult]
          | some crow =>
              cases dp <;> cases dc <;> cases io <;> rcases ru with e | v <;>
                simp [process_try_on, hf1, hf2, procFailResult]

/-- A processing environment in which every collaborator succeeds, used for
claim C7. -/
def procEnvC7 : ProcessEnv :=
  ⟨true, "t/p.jpg", "t/c.jpg", "t/r.png", true, true, true,
    Except.ok "http://res/r.png", 10, 3⟩

/-- A database whose person image 5 is owned by user 1, and whose `users`
table does not contain 99. -/
def dbC7 : DB :=
  ⟨[1], [⟨5, some 1, "p", "http://res/p.jpg", 0⟩],
    [⟨9, none, "c", "http://res/c.jpg", 0⟩], [], []⟩

/-- Counterexample to C7 as stated: processing with the unknown user id 99
succeeds, but the created `tryOnImage` row is owned by user 1 (the person
image's stored owner), not by a null owner. -/
theorem c7_counterexample :
    (99 : Int) ∉ dbC7.users ∧
    (process_try_on procEnvC7 dbC7 5 9 (some 99)).status = 200 ∧
    (process_try_on procEnvC7 dbC7 5 9 (some 99)).db.tryOnImage.map (fun r => r.user_id) =
      [some 1] :=
  ⟨by decide, rfl, rfl⟩

/-- Claim C7 (amended): an unknown supplied user id never changes the
behavior of intake or processing (the request behaves exactly as if no user
id had been supplied, so it does not fail because of the id); intake rows are
created with a null owner, while a processing row's owner falls back to the
person image's stored owner (null only when that owner is null or zero). -/
theorem c7_unknown_user_owner (uenv : UploadEnv) (penv : ProcessEnv) (db db2 : DB)
    (p c : Bool) (u : Int) (pid cid : Int)
    (hu : u ∉ db.users) (hu2 : u ∉ db2.users) :
    upload_images uenv db p c (some u) = upload_images uenv db p c none ∧
    (∀ r ∈ (upload_images uenv db p c (some u)).db.users_image,
      r ∈ db.users_image ∨ r.user_id = none) ∧
    (∀ r ∈ (upload_images uenv db p c (some u)).db.clothes,
      r ∈ db.clothes ∨ r.user_id = none) ∧
    process_try_on penv db2 pid cid (some u) = process_try_on penv db2 pid cid none ∧
    (∀ r ∈ (process_try_on penv db2 pid cid (some u)).db.tryOnImage,
      r ∈ db2.tryOnImage ∨
        ∃ prow, db2.users_image.find? (fun x => x.id == pid) = some prow ∧
          r.user_id = pyFallbackOwner none prow.user_id) := by
  have hres : resolveUserId db (some u) = none := resolveUserId_not_mem db u hu
  have hres2 : resolveUserId db2 (some u) = none := resolveUserId_not_mem db2 u hu2
  have he : resolveUserId db (some u) = resolveUserId db none := by rw [hres]; rfl
  have he2 : resolveUserId db2 (some u) = resolveUserId db2 none := by rw [hres2]; rfl
  refine ⟨?_, ?_, ?_, ?_, ?_⟩
  · simp only [upload_images, he]
  · intro r hr
    rcases upload_images_users_image_shape uenv db p c (some u) with hsh | ⟨url, hsh⟩
    · rw [hsh] at hr; exact Or.inl hr
    · rw [hsh] at hr
      rcases mem_append_singleton hr with h | h
      · exact Or.inl h
      · right; rw [h, hres]
  · intro r hr
    rcases upload_images_clothes_shape uenv db p c (some u) with hsh | ⟨url, hsh⟩
    · rw [hsh] at hr; exact Or.inl hr
    · rw [hsh] at hr
      rcases mem_append_singleton hr with h | h
      · exact Or.inl h
      · right; rw [h, hres]
  · simp only [process_try_on, he2]
  · intro r hr
    rcases process_tryOnImage_shape penv db2 pid cid (some u) with hsh | ⟨prow, url, hf, hsh⟩
    · rw [hsh] at hr; exact Or.inl hr
    · rw [hsh] at hr
      rcases mem_append_singleton hr with h | h
      · exact Or.inl h
      · right
        exact ⟨prow, hf, by rw [h, hres2]⟩

/-- Witness for the amended C7 at user id 99, an empty intake database and
the processing database of the counterexample. -/
theorem c7_unknown_user_owner_witness :
    upload_images ⟨true, "t/p.png", "t/c.png", Except.ok "u1", Except.ok "u2", 1, 2, 0⟩
        ⟨[], [], [], [], []⟩ true true (some 99) =
      upload_images ⟨true, "t/p.png", "t/c.png", Except.ok "u1", Except.ok "u2", 1, 2, 0⟩
        ⟨[], [], [], [], []⟩ true true none ∧
    (∀ r ∈ (upload_images ⟨true, "t/p.png", "t/c.png", Except.ok "u1", Except.ok "u2", 1, 2, 0⟩
        ⟨[], [], [], [], []⟩ true true (some 99)).db.users_image,
      r ∈ (DB.mk [] [] [] [] []).users_image ∨ r.user_id = none) ∧
    (∀ r ∈ (upload_images ⟨true, "t/p.png", "t/c.png", Except.ok "u1", Except.ok "u2", 1, 2, 0⟩
        ⟨[], [], [], [], []⟩ true true (some 99)).db.clothes,
      r ∈ (DB.mk [] [] [] [] []).clothes ∨ r.user_id = none) ∧
    process_try_on procEnvC7 dbC7 5 9 (some 99) = process_try_on procEnvC7 dbC7 5 9 none ∧
    (∀ r ∈ (process_try_on procEnvC7 dbC7 5 9 (some 99)).db.tryOnImage,
      r ∈ dbC7.tryOnImage ∨
        ∃ prow, dbC7.users_image.find? (fun x => x.id == 5) = some prow ∧
          r.user_id = pyFallbackOwner none prow.user_id) :=
  c7_unknown_user_owner
    ⟨true, "t/p.png", "t/c.png", Except.ok "u1", Except.ok "u2", 1, 2, 0⟩ procEnvC7
    ⟨[], [], [], [], []⟩ dbC7 true true 99 5 9 (by decide) (by decide)

/-! Claim C8: the recorded storage identifier versus the folder-qualified
public id. -/

/-- Claim C8: the identifier recorded in the database is the last
slash-separated URL segment truncated before its first dot; it never equals
the folder-qualified public id `HackAIThon/<name>` of the uploaded object;
and the delete-history storage delete is issued with this recorded
(non-matching) identifier. -/
theorem c8_recorded_id_mismatch (uenv : UploadEnv) (db db2 : DB) (uid : Option Int)
    (purl : String) (denv : DeleteEnv) (rid : Int) (row : TryOnRow)
    (hconn : uenv.connOk = true) (hup : uenv.personUpload = Except.ok purl)
    (hfind : db2.tryOnImage.find? (fun r => r.id == rid) = some row)
    (hpid : row.public_id ≠ "") :
    (upload_images uenv db true false uid).person_public_id =
      some (extract_public_id purl) ∧
    (upload_images uenv db true false uid).db.users_image =
      db.users_image ++ [⟨uenv.newPersonId, resolveUserId db uid,
        extract_public_id purl, purl, uenv.now⟩] ∧
    (∀ url name, extract_public_id url ≠ folderQualifiedPublicId name) ∧
    (delete_history denv db2 rid).events.head? =
      some (Event.storageDelete row.public_id) := by
  obtain ⟨sf, dok⟩ := denv
  refine ⟨?_, ?_, fun url name => extract_ne_folderQualified url name, ?_⟩
  · simp [upload_images, hconn, hup]
  · simp [upload_images, hconn, hup]
  · cases dok <;> simp [delete_history, hfind, hpid]

/-- Witness for C8 with a realistic Cloudinary URL and a concrete
delete-history request. -/
theorem c8_recorded_id_mismatch_witness :
    (upload_images ⟨true, "t/p.png", "t/c.png",
        Except.ok "http://res.cloudinary.com/demo/image/upload/v1/HackAIThon/p.png",
        Except.ok "cu", 1, 2, 0⟩ ⟨[], [], [], [], []⟩ true false none).person_public_id =
      some (extract_public_id
        "http://res.cloudinary.com/demo/image/upload/v1/HackAIThon/p.png") ∧
    (upload_images ⟨true, "t/p.png", "t/c.png",
        Except.ok "http://res.cloudinary.com/demo/image/upload/v1/HackAIThon/p.png",
        Except.ok "cu", 1, 2, 0⟩ ⟨[], [], [], [], []⟩ true false none).db.users_image =
      (DB.mk [] [] [] [] []).users_image ++ [⟨1,
        resolveUserId ⟨[], [], [], [], []⟩ none,
        extract_public_id "http://res.cloudinary.com/demo/image/upload/v1/HackAIThon/p.png",
        "http://res.cloudinary.com/demo/image/upload/v1/HackAIThon/p.png", 0⟩] ∧
    (∀ url name, extract_public_id url ≠ folderQualifiedPublicId name) ∧
    (delete_history ⟨true, true⟩
        (DB.mk [] [] [] [⟨7, none, 1, 2, "pid7", "http://x/y.png", 5⟩] []) 7).events.head? =
      some (Event.storageDelete "pid7") :=
  c8_recorded_id_mismatch
    ⟨true, "t/p.png", "t/c.png",
      Except.ok "http://res.cloudinary.com/demo/image/upload/v1/HackAIThon/p.png",
      Except.ok "cu", 1, 2, 0⟩
    ⟨[], [], [], [], []⟩
    (DB.mk [] [] [] [⟨7, none, 1, 2, "pid7", "http://x/y.png", 5⟩] []) none
    "http://res.cloudinary.com/demo/image/upload/v1/HackAIThon/p.png"
    ⟨true, true⟩ 7 ⟨7, none, 1, 2, "pid7", "http://x/y.png", 5⟩
    rfl rfl rfl (by decide)

/-! Claim C10: the display formatter. -/

/-- Claim C10: the formatter is a pure function of the payload; for a
numeric `overall_score` between 1 and 10 the rendered score line carries
exactly ten star slots, the first `int(min(score, 10))` of them filled; an
undecodable string payload passes through unchanged; and a payload with no
recognized field is rendered as the raw (pretty-printed) JSON dump. -/
theorem c10_format_feedback (parse : String → Option Payload) (dumps : Payload → String)
    (numStr : ℚ → String) (q : ℚ) (h1 : 1 ≤ q) (h2 : q ≤ 10) :
    (starSlots q).length = 10 ∧
    starSlots q = List.replicate (starCount q) '★' ++
      List.replicate (10 - starCount q) '☆' ∧
    format_feedback_for_ui parse dumps numStr (FB.obj ⟨none, none, some (ScoreVal.num q)⟩) =
      "💯 ĐIỂM ĐÁNH GIÁ TỔNG THỂ:" ++ "\n" ++
        (String.mk (starSlots q) ++ " (" ++ numStr q ++ "/10)") ∧
    (∀ s, parse s = none → format_feedback_for_ui parse dumps numStr (FB.str s) = s) ∧
    (∀ p : Payload, pyTruthyStr p.feedback = false → pyTruthyList p.recommendations = false →
      p.overall_score = none → format_feedback_for_ui parse dumps numStr (FB.obj p) = dumps p) := by
  have hq0 : (0 : ℚ) ≤ q := le_trans zero_le_one h1
  have hmin : min q 10 = q := min_eq_left h2
  have hpy : pyInt (min q 10) = ⌊q⌋ := by rw [hmin]; simp [pyInt, hq0]
  have hfl1 : (1 : ℤ) ≤ ⌊q⌋ := Int.le_floor.mpr (by exact_mod_cast h1)
  have hfl10 : ⌊q⌋ ≤ 10 := by
    have h := Int.floor_le_floor (α := ℚ) h2
    simpa using h
  refine ⟨?_, ?_, rfl, ?_, ?_⟩
  · simp only [starSlots, starCount, emptyStarCount, hpy, List.length_append,
      List.length_replicate]
    omega
  · have he : emptyStarCount q = 10 - starCount q := by
      simp only [starCount, emptyStarCount, hpy]
      omega
    rw [starSlots, he]
  · intro s hs
    simp [format_feedback_for_ui, hs]
  · intro p hf hr hs
    simp [format_feedback_for_ui, formatPayload, hf, hr, hs]

/-- Witness for C10 at score 7 and concrete parser and serializers. -/
theorem c10_format_feedback_witness :
    (starSlots 7).length = 10 ∧
    starSlots 7 = List.replicate (starCount 7) '★' ++
      List.replicate (10 - starCount 7) '☆' ∧
    format_feedback_for_ui (fun _ => none) (fun _ => "RAW") (fun _ => "7")
        (FB.obj ⟨none, none, some (ScoreVal.num 7)⟩) =
      "💯 ĐIỂM ĐÁNH GIÁ TỔNG THỂ:" ++ "\n" ++
        (String.mk (starSlots 7) ++ " (" ++ (fun (_ : ℚ) => "7") 7 ++ "/10)") ∧
    (∀ s, (fun (_ : String) => (none : Option Payload)) s = none →
      format_feedback_for_ui (fun _ => none) (fun _ => "RAW") (fun _ => "7") (FB.str s) = s) ∧
    (∀ p : Payload, pyTruthyStr p.feedback = false → pyTruthyList p.recommendations = false →
      p.overall_score = none →
      format_feedback_for_ui (fun _ => none) (fun _ => "RAW") (fun _ => "7") (FB.obj p) =
        (fun (_ : Payload) => "RAW") p) :=
  c10_format_feedback (fun _ => none) (fun _ => "RAW") (fun _ => "7") 7
    (by norm_num) (by norm_num)

end VTO
